import Mathlib

/-!
Verification of the OAuth2/PKCE token-lifecycle routes of `src/index.js`
(a Koa server): `GET /callback`, `POST /refresh_token`, `GET /token`,
`POST /logout`.  The handlers are embedded shallowly as pure functions:
the Koa session (`ctx.session`) is threaded explicitly, the outbound
provider calls (`getPKCEOAuthToken`, `refreshOAuthToken`) are supplied
as an `Except`-valued oracle argument, and `Date.now()` is an explicit
`now : Int` argument.  JavaScript truthiness of a possibly-absent string
value is modelled by `strTruthy`.
-/

namespace GoodsBuyer

/-- A token response from the external provider SDK
(`getPKCEOAuthToken` / `refreshOAuthToken` resolve to
`{access_token, refresh_token, expires_in}`).  `expires_in` is the
lifetime in seconds, an integer; the source's coercion
`(Number(expires_in) || 0)` is the identity on integers. -/
structure ProviderToken where
  access_token : String
  refresh_token : String
  expires_in : Int
deriving Repr, DecidableEq

/-- The oauth record the server stores in the session
(`ctx.session.oauth = {token_type, access_token, refresh_token,
expires_in, expire_at}`, written at src/index.js:230 and 282). -/
structure OAuthRecord where
  token_type : String
  access_token : String
  refresh_token : String
  expires_in : Int
  expire_at : Int
deriving Repr, DecidableEq

/-- The cookie-backed Koa session: `ctx.session.codeVerifier` (set by
`GET /login`) and `ctx.session.oauth`, each possibly absent. -/
structure Session where
  codeVerifier : Option String
  oauth : Option OAuthRecord
deriving Repr, DecidableEq

/-- A fresh/cleared session (`ctx.session = null` makes the next request
see an empty session). -/
def Session.empty : Session := ⟨none, none⟩

/-- JavaScript truthiness of a possibly-`undefined` string value:
`undefined` and `""` are falsy, every other string is truthy. -/
def strTruthy : Option String → Bool
  | none => false
  | some s => s ≠ ""

/-- JavaScript `a || b` where `a` is a possibly-`undefined` string and
`b` a string: the left operand if truthy, else the right. -/
def jsOrStr : Option String → String → String
  | none, b => b
  | some s, b => if s = "" then b else s

/-- The character class trimmed by JavaScript `String.prototype.trim`
(ASCII whitespace plus NBSP and the BOM; Unicode space separators other
than NBSP are omitted, which is faithful for the tokens at issue). -/
def isJsSpace (c : Char) : Bool :=
  c = ' ' || c = '\t' || c = '\n' || c = '\r' ||
  c = '\x0b' || c = '\x0c' || c = '\u00A0' || c = '\uFEFF'

/-- JavaScript `s.trim()`: drop leading and trailing whitespace. -/
def jsTrim (s : String) : String :=
  ⟨((s.data.dropWhile isJsSpace).reverse.dropWhile isJsSpace).reverse⟩

/-- The fallback-token configuration read by `GET /token`:
`process.env.COZE_PAT`, `config.websdk_pat`, `config.pat`
(src/index.js:319). -/
structure PatEnv where
  cozePatEnv : Option String
  websdk_pat : Option String
  pat : Option String
deriving Repr, DecidableEq

/-- The raw fallback chain
`process.env.COZE_PAT || config.websdk_pat || config.pat || ''`
(src/index.js:319, before `.trim()`). -/
def rawFallback (env : PatEnv) : String :=
  jsOrStr env.cozePatEnv (jsOrStr env.websdk_pat (jsOrStr env.pat ""))

/-- `const pat = (process.env.COZE_PAT || config.websdk_pat || config.pat
|| '').trim()` (src/index.js:319). -/
def fallbackPat (env : PatEnv) : String := jsTrim (rawFallback env)

/-- Result of the `GET /callback` handler: HTTP status, the `error`
string handed to the error template when a failure page is rendered, the
session after the handler, and whether the line
`await getPKCEOAuthToken(...)` (src/index.js:221) was reached. -/
structure CallbackResult where
  status : Nat
  errMsg : Option String
  session : Session
  exchanged : Bool
deriving Repr, DecidableEq

/-- `GET /callback` (src/index.js:199-257).  `code` is the query
parameter, `provider` the outcome of the `getPKCEOAuthToken` exchange
(only consulted once both preconditions pass), `now` is `Date.now()` at
the construction of the stored record. -/
def callback (sess : Session) (code : Option String) (now : Int)
    (provider : Except String ProviderToken) : CallbackResult :=
  if !strTruthy code then
    { status := 400
      errMsg := some ("Authorization failed: " ++ "No authorization code received")
      session := sess
      exchanged := false }
  else if !strTruthy sess.codeVerifier then
    { status := 400
      errMsg := some ("Authorization failed: " ++ "No code verifier found")
      session := sess
      exchanged := false }
  else
    match provider with
    | .ok tok =>
        { status := 200
          errMsg := none
          session :=
            { sess with
              oauth := some
                { token_type := "pkce"
                  access_token := tok.access_token
                  refresh_token := tok.refresh_token
                  expires_in := tok.expires_in
                  expire_at := now + tok.expires_in * 1000 } }
          exchanged := true }
    | .error msg =>
        { status := 500
          errMsg := some ("Failed to get access token: " ++ msg)
          session := sess
          exchanged := true }

/-- Whether `ctx.session && ctx.session.oauth && ctx.session.oauth.refresh_token`
is truthy (src/index.js:264). -/
def sessionRefreshTruthy (sess : Session) : Bool :=
  match sess.oauth with
  | none => false
  | some o => o.refresh_token ≠ ""

/-- `let {refresh_token} = ctx.request.body || {}; if (!refresh_token &&
ctx.session && ctx.session.oauth && ctx.session.oauth.refresh_token)
refresh_token = ctx.session.oauth.refresh_token` (src/index.js:262-266). -/
def resolveRefresh (sess : Session) (bodyToken : Option String) : Option String :=
  if !strTruthy bodyToken && sessionRefreshTruthy sess then
    sess.oauth.map (·.refresh_token)
  else bodyToken

/-- JSON body of a `POST /refresh_token` response: either the success
object or an `{error: ...}` object. -/
inductive RefreshBody where
  | ok (token_type access_token refresh_token : String) (expires_in : Int)
  | err (error : String)
deriving Repr, DecidableEq

/-- Result of the `POST /refresh_token` handler: HTTP status, JSON body,
session after the handler, and the `refreshToken` value passed to
`refreshOAuthToken` (src/index.js:277), `none` when no provider call was
made. -/
structure RefreshResult where
  status : Nat
  body : RefreshBody
  session : Session
  sentToken : Option String
deriving Repr, DecidableEq

/-- `POST /refresh_token` (src/index.js:260-301).  `bodyToken` is the
optional `refresh_token` field of the JSON body, `provider` the outcome
of the `refreshOAuthToken` exchange (only consulted when a truthy
refresh token was resolved), `now` is `Date.now()`. -/
def refresh_token_route (sess : Session) (bodyToken : Option String) (now : Int)
    (provider : Except String ProviderToken) : RefreshResult :=
  let rt := resolveRefresh sess bodyToken
  if !strTruthy rt then
    { status := 401
      body := .err "No refresh token available. Please re-login."
      session := sess
      sentToken := none }
  else
    match provider with
    | .ok tok =>
        { status := 200
          body := .ok "pkce" tok.access_token tok.refresh_token tok.expires_in
          session :=
            { sess with
              oauth := some
                { token_type := "pkce"
                  access_token := tok.access_token
                  refresh_token := tok.refresh_token
                  expires_in := tok.expires_in
                  expire_at := now + tok.expires_in * 1000 } }
          sentToken := rt }
    | .error msg =>
        { status := 500
          body := .err ("Failed to refresh token: " ++ msg)
          session := sess
          sentToken := rt }

/-- JSON body of a `GET /token` response. -/
inductive TokenBody where
  | ok (token_type access_token : String)
  | err (error : String)
deriving Repr, DecidableEq

/-- Result of the `GET /token` handler: HTTP status, JSON body, and the
session after the handler. -/
structure TokenResult where
  status : Nat
  body : TokenBody
  session : Session
deriving Repr, DecidableEq

/-- The public-PAT branch of `GET /token` (src/index.js:319-332),
reached when the session holds no truthy oauth access token. -/
def getTokenPat (sess : Session) (env : PatEnv) : TokenResult :=
  let pat := fallbackPat env
  if pat ≠ "" then
    { status := 200, body := .ok "pat" pat, session := sess }
  else
    { status := 401
      body := .err "Public PAT not configured. Set env COZE_PAT or websdk_pat in coze_oauth_config.json."
      session := sess }

/-- `GET /token` (src/index.js:304-338).  Priority: a session oauth
record with truthy `access_token` is served with
`oauth.token_type || "pkce"`, else the configured fallback PAT, else
HTTP 401. -/
def getToken (sess : Session) (env : PatEnv) : TokenResult :=
  match sess.oauth with
  | some o =>
      if o.access_token ≠ "" then
        { status := 200
          body := .ok (if o.token_type = "" then "pkce" else o.token_type) o.access_token
          session := sess }
      else getTokenPat sess env
  | none => getTokenPat sess env

/-- Result of the `POST /logout` handler. -/
structure LogoutResult where
  status : Nat
  ok : Bool
  session : Session
deriving Repr, DecidableEq

/-- `POST /logout` (src/index.js:341-345): `ctx.session = null`,
status 200, body `{ok: true}`. -/
def logout (_sess : Session) : LogoutResult :=
  { status := 200, ok := true, session := Session.empty }

/-- Every oauth record the server itself writes into a session carries
`token_type = "pkce"` (src/index.js:231 and 283); sessions are held in a
cookie signed with a server-private key, so this holds of every session
the handlers can see. -/
def WellFormed (sess : Session) : Prop :=
  ∀ o, sess.oauth = some o → o.token_type = "pkce"

/-- The guard `oauth && oauth.access_token` of `GET /token`
(src/index.js:308). -/
def hasSessionToken (sess : Session) : Bool :=
  match sess.oauth with
  | none => false
  | some o => o.access_token ≠ ""

/-- When the session guard of `GET /token` fails, the handler runs its
public-PAT branch. -/
theorem getToken_of_no_session_token (sess : Session) (env : PatEnv)
    (h : hasSessionToken sess = false) : getToken sess env = getTokenPat sess env := by
  unfold getToken
  cases hs : sess.oauth with
  | none => rfl
  | some o =>
      unfold hasSessionToken at h
      rw [hs] at h
      simp only [ne_eq, decide_not, Bool.not_eq_false', decide_eq_true_eq] at h
      simp [h]

/-- C1: `GET /token` follows first-match-wins priority: a session oauth
record with a present `access_token` is returned with token_type
"pkce"; else a configured fallback (COZE_PAT over `websdk_pat` over
`pat`) is returned with token_type "pat"; else HTTP 401 NotConfigured.
The hypothesis records that server-written oauth records carry
`token_type = "pkce"`. -/
theorem token_priority_first_match (sess : Session) (env : PatEnv)
    (hwf : WellFormed sess) :
    (∀ o, sess.oauth = some o → o.access_token ≠ "" →
        getToken sess env = ⟨200, .ok "pkce" o.access_token, sess⟩)
    ∧ (hasSessionToken sess = false → fallbackPat env ≠ "" →
        getToken sess env = ⟨200, .ok "pat" (fallbackPat env), sess⟩)
    ∧ (hasSessionToken sess = false → fallbackPat env = "" →
        getToken sess env =
          ⟨401, .err "Public PAT not configured. Set env COZE_PAT or websdk_pat in coze_oauth_config.json.", sess⟩)
    ∧ (∀ s, env.cozePatEnv = some s → s ≠ "" → rawFallback env = s)
    ∧ (strTruthy env.cozePatEnv = false →
        ∀ s, env.websdk_pat = some s → s ≠ "" → rawFallback env = s)
    ∧ (strTruthy env.cozePatEnv = false → strTruthy env.websdk_pat = false →
        ∀ s, env.pat = some s → s ≠ "" → rawFallback env = s) := by
  refine ⟨?_, ?_, ?_, ?_, ?_, ?_⟩
  · intro o ho hat
    have hpkce := hwf o ho
    unfold getToken
    rw [ho]
    simp [hat, hpkce]
  · intro hno hpat
    rw [getToken_of_no_session_token sess env hno]
    unfold getTokenPat
    simp [hpat]
  · intro hno hpat
    rw [getToken_of_no_session_token sess env hno]
    unfold getTokenPat
    simp [hpat]
  · intro s hs hne
    unfold rawFallback
    rw [hs]
    simp [jsOrStr, hne]
  · intro henv s hs hne
    unfold rawFallback
    cases he : env.cozePatEnv with
    | none => rw [hs]; simp [jsOrStr, hne]
    | some e =>
        unfold strTruthy at henv
        rw [he] at henv
        simp only [ne_eq, decide_not, Bool.not_eq_false', decide_eq_true_eq] at henv
        rw [hs]
        simp [jsOrStr, henv, hne]
  · intro henv hweb s hs hne
    unfold rawFallback
    have he : jsOrStr env.cozePatEnv = fun b => b := by
      cases he : env.cozePatEnv with
      | none => funext b; rfl
      | some e =>
          unfold strTruthy at henv
          rw [he] at henv
          simp only [ne_eq, decide_not, Bool.not_eq_false', decide_eq_true_eq] at henv
          funext b
          simp [jsOrStr, henv]
    have hw : jsOrStr env.websdk_pat = fun b => b := by
      cases hwc : env.websdk_pat with
      | none => funext b; rfl
      | some w =>
          unfold strTruthy at hweb
          rw [hwc] at hweb
          simp only [ne_eq, decide_not, Bool.not_eq_false', decide_eq_true_eq] at hweb
          funext b
          simp [jsOrStr, hweb]
    rw [he, hw, hs]
    simp [jsOrStr, hne]

/-- Witness for C1: a session holding an oauth record with access token
"A" gets `{token_type: "pkce", access_token: "A"}` from `GET /token`. -/
theorem token_priority_first_match_witness :
    getToken ⟨none, some ⟨"pkce", "A", "R", 600, 600000⟩⟩ ⟨none, none, none⟩ =
      ⟨200, .ok "pkce" "A", ⟨none, some ⟨"pkce", "A", "R", 600, 600000⟩⟩⟩ :=
  (token_priority_first_match ⟨none, some ⟨"pkce", "A", "R", 600, 600000⟩⟩ ⟨none, none, none⟩
    (by intro o ho; cases ho; rfl)).1 ⟨"pkce", "A", "R", 600, 600000⟩ rfl (by decide)

/-- C2: the `GET /callback` preconditions are checked in order with
distinct reasons: a missing `code` yields HTTP 400 with reason
"No authorization code received"; a present `code` with no session
verifier yields HTTP 400 with reason "No code verifier found"; in both
cases the session is untouched and no provider exchange is attempted. -/
theorem callback_preconditions (sess : Session) (code : Option String)
    (now : Int) (p : Except String ProviderToken) :
    (strTruthy code = false →
        callback sess code now p =
          ⟨400, some ("Authorization failed: " ++ "No authorization code received"),
            sess, false⟩)
    ∧ (strTruthy code = true → strTruthy sess.codeVerifier = false →
        callback sess code now p =
          ⟨400, some ("Authorization failed: " ++ "No code verifier found"),
            sess, false⟩) := by
  constructor
  · intro h
    unfold callback
    simp [h]
  · intro hc hv
    unfold callback
    simp [hc, hv]

/-- Witness for C2: both failure branches at concrete inputs. -/
theorem callback_preconditions_witness :
    callback ⟨some "v", none⟩ none 0 (.error "x") =
      ⟨400, some ("Authorization failed: " ++ "No authorization code received"),
        ⟨some "v", none⟩, false⟩
    ∧ callback ⟨none, none⟩ (some "c") 0 (.error "x") =
      ⟨400, some ("Authorization failed: " ++ "No code verifier found"),
        ⟨none, none⟩, false⟩ :=
  ⟨(callback_preconditions ⟨some "v", none⟩ none 0 (.error "x")).1 rfl,
   (callback_preconditions ⟨none, none⟩ (some "c") 0 (.error "x")).2 (by decide) rfl⟩

/-- Counterexample to C3: after a callback whose provider exchange was
reached and succeeded, the session still holds the very verifier that
was used — the handler never deletes `ctx.session.codeVerifier`
(src/index.js:219-257 contains no such assignment); likewise on a
provider error. -/
theorem callback_retains_verifier_cex :
    (callback ⟨some "v", none⟩ (some "c") 0 (.ok ⟨"A", "R", 600⟩)).exchanged = true
    ∧ (callback ⟨some "v", none⟩ (some "c") 0
        (.ok ⟨"A", "R", 600⟩)).session.codeVerifier = some "v"
    ∧ (callback ⟨some "v", none⟩ (some "c") 0
        (.error "boom")).session.codeVerifier = some "v" := by
  refine ⟨rfl, rfl, rfl⟩

/-- C3 as amended: the callback never clears the pending verifier —
after the handler returns, on any branch (precondition failure, provider
success, or provider error), `session.codeVerifier` is exactly what it
was before; single use is enforced only by the provider rejecting a
replayed code, not by the session. -/
theorem callback_preserves_verifier (sess : Session) (code : Option String)
    (now : Int) (p : Except String ProviderToken) :
    (callback sess code now p).session.codeVerifier = sess.codeVerifier := by
  unfold callback
  split
  · rfl
  · split
    · rfl
    · cases p with
      | ok tok => rfl
      | error msg => rfl

/-- C4: `POST /refresh_token` resolves the refresh token as the body
value when present, else the session record's `refresh_token`; when
neither exists it answers HTTP 401 with exactly
"No refresh token available. Please re-login." and makes no provider
call (`sentToken = none`). -/
theorem refresh_resolution_order (sess : Session) (b : Option String)
    (now : Int) (p : Except String ProviderToken) :
    (strTruthy b = true → (refresh_token_route sess b now p).sentToken = b)
    ∧ (strTruthy b = false →
        ∀ o, sess.oauth = some o → o.refresh_token ≠ "" →
          (refresh_token_route sess b now p).sentToken = some o.refresh_token)
    ∧ (strTruthy b = false → sessionRefreshTruthy sess = false →
        refresh_token_route sess b now p =
          ⟨401, .err "No refresh token available. Please re-login.", sess, none⟩) := by
  refine ⟨?_, ?_, ?_⟩
  · intro hb
    have hr : resolveRefresh sess b = b := by
      unfold resolveRefresh
      simp [hb]
    cases p <;> simp [refresh_token_route, hr, hb]
  · intro hb o ho hrt
    have hs : sessionRefreshTruthy sess = true := by
      unfold sessionRefreshTruthy
      rw [ho]
      simp [hrt]
    have hr : resolveRefresh sess b = some o.refresh_token := by
      unfold resolveRefresh
      rw [hb, hs, ho]
      rfl
    have htr : strTruthy (some o.refresh_token) = true := by
      unfold strTruthy
      simp [hrt]
    cases p <;> simp [refresh_token_route, hr, htr]
  · intro hb hs
    have hr : resolveRefresh sess b = b := by
      unfold resolveRefresh
      rw [hb, hs]
      rfl
    simp [refresh_token_route, hr, hb]

/-- Witness for C4: an empty body on a never-authenticated session gets
the 401 with the exact re-login message and no provider call. -/
theorem refresh_resolution_order_witness :
    refresh_token_route ⟨none, none⟩ none 0 (.error "x") =
      ⟨401, .err "No refresh token available. Please re-login.", ⟨none, none⟩, none⟩ :=
  (refresh_resolution_order ⟨none, none⟩ none 0 (.error "x")).2.2 rfl rfl

/-- C5: when the provider exchange of `POST /refresh_token` fails, the
handler answers HTTP 500 carrying the provider's message and the
session — in particular any previously stored oauth record — is left
completely unchanged. -/
theorem refresh_failure_nondestructive (sess : Session) (b : Option String)
    (now : Int) (msg : String)
    (h : strTruthy (resolveRefresh sess b) = true) :
    refresh_token_route sess b now (.error msg) =
      ⟨500, .err ("Failed to refresh token: " ++ msg), sess, resolveRefresh sess b⟩ := by
  simp [refresh_token_route, h]

/-- Witness for C5: a failed refresh on a session holding a valid record
returns 500 and keeps the record byte-for-byte. -/
theorem refresh_failure_nondestructive_witness :
    strTruthy (resolveRefresh ⟨none, some ⟨"pkce", "A", "R", 600, 600000⟩⟩ none) = true
    ∧ refresh_token_route ⟨none, some ⟨"pkce", "A", "R", 600, 600000⟩⟩ none 7 (.error "down") =
        ⟨500, .err ("Failed to refresh token: " ++ "down"),
          ⟨none, some ⟨"pkce", "A", "R", 600, 600000⟩⟩, some "R"⟩ :=
  ⟨by decide,
   refresh_failure_nondestructive ⟨none, some ⟨"pkce", "A", "R", 600, 600000⟩⟩ none 7 "down"
     (by decide)⟩

/-- C6: every record stored by a successful callback and every record
stored by a successful refresh has `expire_at = now + expires_in * 1000`
(with `now` the `Date.now()` at construction) and `token_type = "pkce"`. -/
theorem stored_record_expiry_and_type (sess : Session) (now : Int)
    (tok : ProviderToken) :
    (∀ code, strTruthy code = true → strTruthy sess.codeVerifier = true →
        (callback sess code now (.ok tok)).session.oauth =
          some ⟨"pkce", tok.access_token, tok.refresh_token, tok.expires_in,
            now + tok.expires_in * 1000⟩)
    ∧ (∀ b, strTruthy (resolveRefresh sess b) = true →
        (refresh_token_route sess b now (.ok tok)).session.oauth =
          some ⟨"pkce", tok.access_token, tok.refresh_token, tok.expires_in,
            now + tok.expires_in * 1000⟩) := by
  constructor
  · intro code hc hv
    unfold callback
    simp [hc, hv]
  · intro b hb
    simp [refresh_token_route, hb]

/-- Witness for C6: a token with `expires_in = 600` issued at `now = 7`
is stored with `expire_at = 600007` and `token_type = "pkce"`, by both
handlers. -/
theorem stored_record_expiry_and_type_witness :
    (callback ⟨some "v", none⟩ (some "c") 7 (.ok ⟨"A", "R", 600⟩)).session.oauth =
      some ⟨"pkce", "A", "R", 600, 600007⟩
    ∧ (refresh_token_route ⟨none, some ⟨"pkce", "old", "R", 1, 9⟩⟩ none 7
        (.ok ⟨"A", "R2", 600⟩)).session.oauth =
      some ⟨"pkce", "A", "R2", 600, 600007⟩ :=
  ⟨(stored_record_expiry_and_type ⟨some "v", none⟩ 7 ⟨"A", "R", 600⟩).1
      (some "c") (by decide) (by decide),
   (stored_record_expiry_and_type ⟨none, some ⟨"pkce", "old", "R", 1, 9⟩⟩ 7
      ⟨"A", "R2", 600⟩).2 none (by decide)⟩

/-- C7: `GET /token` is a pure read — on every branch (session token,
fallback PAT, or 401), for every session including one whose record's
`expire_at` already lies in the past, the session (verifier and oauth
record) comes out unchanged and no refresh is triggered. -/
theorem token_route_pure_read (sess : Session) (env : PatEnv) :
    (getToken sess env).session = sess := by
  have hpat : (getTokenPat sess env).session = sess := by
    by_cases h : fallbackPat env = "" <;> simp [getTokenPat, h]
  unfold getToken
  cases hs : sess.oauth with
  | none => exact hpat
  | some o => by_cases h : o.access_token = "" <;> simp [h, hpat]

/-- C8: `POST /logout` answers 200 `{ok: true}` and clears the session;
a following `GET /token` on the cleared session yields 401 when no
fallback PAT is configured and the fallback with token_type "pat" when
one is. -/
theorem logout_clears_session (sess : Session) (env : PatEnv) :
    logout sess = ⟨200, true, Session.empty⟩
    ∧ (fallbackPat env = "" →
        getToken (logout sess).session env =
          ⟨401, .err "Public PAT not configured. Set env COZE_PAT or websdk_pat in coze_oauth_config.json.",
            Session.empty⟩)
    ∧ (fallbackPat env ≠ "" →
        getToken (logout sess).session env =
          ⟨200, .ok "pat" (fallbackPat env), Session.empty⟩) := by
  refine ⟨rfl, ?_, ?_⟩
  · intro h
    show getTokenPat Session.empty env = _
    unfold getTokenPat
    simp [h]
  · intro h
    show getTokenPat Session.empty env = _
    unfold getTokenPat
    simp [h]

/-- Witness for C8: logging out and asking for the token with fallback
"tok" configured returns the fallback; with nothing configured, 401. -/
theorem logout_clears_session_witness :
    getToken (logout ⟨some "v", some ⟨"pkce", "A", "R", 600, 9⟩⟩).session
        ⟨some "tok", none, none⟩ =
      ⟨200, .ok "pat" "tok", Session.empty⟩
    ∧ getToken (logout ⟨some "v", some ⟨"pkce", "A", "R", 600, 9⟩⟩).session
        ⟨none, none, none⟩ =
      ⟨401, .err "Public PAT not configured. Set env COZE_PAT or websdk_pat in coze_oauth_config.json.",
        Session.empty⟩ :=
  ⟨(logout_clears_session ⟨some "v", some ⟨"pkce", "A", "R", 600, 9⟩⟩
      ⟨some "tok", none, none⟩).2.2 (by decide),
   (logout_clears_session ⟨some "v", some ⟨"pkce", "A", "R", 600, 9⟩⟩
      ⟨none, none, none⟩).2.1 rfl⟩

/-- C9: supplying `refresh_token` as the empty string in the body of
`POST /refresh_token` behaves exactly like supplying none at all (it
falls back to the session's refresh token, and 401s only when that is
also absent), and an explicit empty string is never what is sent to the
provider. -/
theorem refresh_empty_body_token (sess : Session) (now : Int)
    (p : Except String ProviderToken) :
    refresh_token_route sess (some "") now p = refresh_token_route sess none now p
    ∧ ((refresh_token_route sess (some "") now p).sentToken ≠ some "") := by
  have hb : strTruthy (some "") = false := rfl
  have hn : strTruthy (none : Option String) = false := rfl
  constructor
  · cases hs : sessionRefreshTruthy sess with
    | false =>
        have h1 : resolveRefresh sess (some "") = some "" := by
          unfold resolveRefresh
          rw [hb, hs]
          rfl
        have h2 : resolveRefresh sess none = none := by
          unfold resolveRefresh
          rw [hn, hs]
          rfl
        simp [refresh_token_route, h1, h2, hb, hn]
    | true =>
        have h1 : resolveRefresh sess (some "") = sess.oauth.map (·.refresh_token) := by
          unfold resolveRefresh
          rw [hb, hs]
          rfl
        have h2 : resolveRefresh sess none = sess.oauth.map (·.refresh_token) := by
          unfold resolveRefresh
          rw [hn, hs]
          rfl
        rw [show refresh_token_route sess (some "") now p =
              refresh_token_route sess none now p from by
          unfold refresh_token_route
          rw [h1, h2]]
  · cases hs : sessionRefreshTruthy sess with
    | false =>
        have h1 : resolveRefresh sess (some "") = some "" := by
          unfold resolveRefresh
          rw [hb, hs]
          rfl
        simp [refresh_token_route, h1, hb]
    | true =>
        cases ho : sess.oauth with
        | none => unfold sessionRefreshTruthy at hs; rw [ho] at hs; cases hs
        | some o =>
            have hrt : o.refresh_token ≠ "" := by
              unfold sessionRefreshTruthy at hs
              rw [ho] at hs
              simpa using hs
            have h1 : resolveRefresh sess (some "") = some o.refresh_token := by
              unfold resolveRefresh
              rw [hb, hs, ho]
              rfl
            have htr : strTruthy (some o.refresh_token) = true := by
              unfold strTruthy
              simp [hrt]
            cases p <;> simp [refresh_token_route, h1, htr, hrt]

/-- Witness for C9 at a concrete input: on a fresh session, an explicit
empty-string body token gives exactly the 401 of an absent one. -/
theorem refresh_empty_body_token_witness :
    refresh_token_route ⟨none, none⟩ (some "") 0 (.error "x") =
      refresh_token_route ⟨none, none⟩ none 0 (.error "x")
    ∧ ((refresh_token_route ⟨none, none⟩ (some "") 0 (.error "x")).sentToken ≠ some "") :=
  refresh_empty_body_token ⟨none, none⟩ 0 (.error "x")

/-- C10: `GET /token` trims the resolved fallback before testing it, so
for an anonymous session a fallback chain that resolves to a
whitespace-only value is treated as not configured: HTTP 401
NotConfigured, never a whitespace token. -/
theorem whitespace_fallback_rejected (sess : Session) (env : PatEnv)
    (hanon : sess.oauth = none) (hws : jsTrim (rawFallback env) = "") :
    getToken sess env =
      ⟨401, .err "Public PAT not configured. Set env COZE_PAT or websdk_pat in coze_oauth_config.json.",
        sess⟩ := by
  have hno : hasSessionToken sess = false := by
    unfold hasSessionToken
    rw [hanon]
  rw [getToken_of_no_session_token sess env hno]
  unfold getTokenPat fallbackPat
  simp [hws]

/-- Witness for C10: COZE_PAT set to three spaces (even with a real
`websdk_pat` behind it) resolves to a whitespace string, trims to empty,
and `GET /token` answers 401. -/
theorem whitespace_fallback_rejected_witness :
    jsTrim (rawFallback ⟨some "   ", some "real", none⟩) = ""
    ∧ getToken ⟨none, none⟩ ⟨some "   ", some "real", none⟩ =
        ⟨401, .err "Public PAT not configured. Set env COZE_PAT or websdk_pat in coze_oauth_config.json.",
          ⟨none, none⟩⟩ :=
  ⟨by decide,
   whitespace_fallback_rejected ⟨none, none⟩ ⟨some "   ", some "real", none⟩ rfl (by decide)⟩

end GoodsBuyer
